import Mathlib

/-!
Verification of the NearbyPlanes integration: a shallow embedding of
`sensor.py`, `geo_location.py` and `config_flow.py`.

JSON values (and Python values flowing through the integration) are
modelled by the inductive type `JVal`; Python `None` is `JVal.null`,
and numbers are modelled by integers (no claim depends on the float
representation of a number).  Dictionaries are association lists with
the first binding of a key the visible one, which matches Python
dictionaries whose keys are unique.
-/

namespace NearbyPlanes

/-- A JSON / Python value as it flows through the integration. -/
inductive JVal where
  | null : JVal
  | bool : Bool → JVal
  | num : Int → JVal
  | str : String → JVal
  | arr : List JVal → JVal
  | obj : List (String × JVal) → JVal
deriving Repr

/-- A JSON object / Python dict: an association list with unique keys. -/
abbrev JObj := List (String × JVal)

mutual

/-- Structural (Lean-level) equality test on `JVal`, used only to obtain
decidable equality for concrete evaluations. -/
def JVal.beq : JVal → JVal → Bool
  | .null, .null => true
  | .bool a, .bool b => a == b
  | .num a, .num b => a == b
  | .str a, .str b => a == b
  | .arr xs, .arr ys => JVal.beqList xs ys
  | .obj xs, .obj ys => JVal.beqObj xs ys
  | _, _ => false

/-- Elementwise `JVal.beq` on lists. -/
def JVal.beqList : List JVal → List JVal → Bool
  | [], [] => true
  | x :: xs, y :: ys => JVal.beq x y && JVal.beqList xs ys
  | _, _ => false

/-- Elementwise `JVal.beq` on association lists. -/
def JVal.beqObj : List (String × JVal) → List (String × JVal) → Bool
  | [], [] => true
  | (k, x) :: xs, (l, y) :: ys => k == l && JVal.beq x y && JVal.beqObj xs ys
  | _, _ => false

end

mutual

theorem JVal.beq_iff : ∀ a b : JVal, JVal.beq a b = true ↔ a = b
  | .null, .null => by simp [JVal.beq]
  | .bool a, .bool b => by simp [JVal.beq]
  | .num a, .num b => by simp [JVal.beq]
  | .str a, .str b => by simp [JVal.beq]
  | .arr xs, .arr ys => by
      simpa [JVal.beq] using JVal.beqList_iff xs ys
  | .obj xs, .obj ys => by
      simpa [JVal.beq] using JVal.beqObj_iff xs ys
  | .null, .bool _ | .null, .num _ | .null, .str _ | .null, .arr _ | .null, .obj _
  | .bool _, .null | .bool _, .num _ | .bool _, .str _ | .bool _, .arr _ | .bool _, .obj _
  | .num _, .null | .num _, .bool _ | .num _, .str _ | .num _, .arr _ | .num _, .obj _
  | .str _, .null | .str _, .bool _ | .str _, .num _ | .str _, .arr _ | .str _, .obj _
  | .arr _, .null | .arr _, .bool _ | .arr _, .num _ | .arr _, .str _ | .arr _, .obj _
  | .obj _, .null | .obj _, .bool _ | .obj _, .num _ | .obj _, .str _ | .obj _, .arr _ => by
      simp [JVal.beq]

theorem JVal.beqList_iff : ∀ xs ys : List JVal, JVal.beqList xs ys = true ↔ xs = ys
  | [], [] => by simp [JVal.beqList]
  | x :: xs, y :: ys => by
      simp [JVal.beqList, JVal.beq_iff x y, JVal.beqList_iff xs ys]
  | [], _ :: _ => by simp [JVal.beqList]
  | _ :: _, [] => by simp [JVal.beqList]

theorem JVal.beqObj_iff : ∀ xs ys : List (String × JVal), JVal.beqObj xs ys = true ↔ xs = ys
  | [], [] => by simp [JVal.beqObj]
  | (k, x) :: xs, (l, y) :: ys => by
      simp [JVal.beqObj, JVal.beq_iff x y, JVal.beqObj_iff xs ys, Prod.ext_iff, and_assoc]
  | [], _ :: _ => by simp [JVal.beqObj]
  | _ :: _, [] => by simp [JVal.beqObj]

end

instance : DecidableEq JVal := fun a b =>
  decidable_of_iff (JVal.beq a b = true) (JVal.beq_iff a b)

/-- Python `d.get(k)`: the value under `k`, or `None` when the key is absent. -/
def jget (o : JObj) (k : String) : JVal :=
  (o.lookup k).getD .null

/-- Python `d.get(k, dflt)`: the value under `k` (even when that value is
`None`), or `dflt` when the key is absent. -/
def jgetD (o : JObj) (k : String) (dflt : JVal) : JVal :=
  (o.lookup k).getD dflt

/-- Python `k in d` on a dict: key membership, regardless of the value. -/
def hasKey (o : JObj) (k : String) : Bool :=
  (o.lookup k).isSome

/-- Python truthiness of a value: `None`, `False`, `0`, the empty string and
empty containers are falsy, everything else is truthy. -/
def truthy : JVal → Bool
  | .null => false
  | .bool b => b
  | .num n => n != 0
  | .str s => s != ""
  | .arr xs => !xs.isEmpty
  | .obj kvs => !kvs.isEmpty

/-- Python `s.strip()`: the string without its leading and trailing
whitespace. -/
def pyStrip (s : String) : String :=
  String.mk (((s.data.dropWhile Char.isWhitespace).reverse.dropWhile
    Char.isWhitespace).reverse)

/-- Python `==` on the scalar values the integration compares (numbers and
booleans compare numerically, as in Python where `True == 1`).  Containers
are never equal to anything here: the integration only ever compares a
value against a string (`alt_baro == "ground"`, `hex == hex_id`), and in
Python a list or dict is never `==` to a string. -/
def pyEq : JVal → JVal → Bool
  | .null, .null => true
  | .str s, .str t => s == t
  | .bool a, .bool b => a == b
  | .bool a, .num m => (if a then (1 : Int) else 0) == m
  | .num n, .bool b => n == (if b then (1 : Int) else 0)
  | .num n, .num m => n == m
  | _, _ => false

/-- Python `str()` / f-string rendering of a value, for URL interpolation.
Containers are abbreviated: the integration only interpolates latitudes,
longitudes and the radius, which are scalars. -/
def pyStr : JVal → String
  | .null => "None"
  | .bool b => if b then "True" else "False"
  | .num n => toString n
  | .str s => s
  | .arr _ => "[...]"
  | .obj _ => "..."

/-- The dict literal built by `normalize_plane` in `sensor.py`, given the
already-computed stripped flight string (`flight = (p.get("flight") or
"").strip()`).  Field by field it is the literal from lines 33–56 of
`sensor.py`; `flight or None` maps the empty string to `None`. -/
def normRecord (p : JObj) (flight : String) : JObj :=
  [("hex", jget p "hex"),
   ("type", jget p "type"),
   ("flight", if flight = "" then .null else .str flight),
   ("t", jget p "t"),
   ("aircraft_type", jget p "t"),
   ("description", jget p "desc"),
   ("category", jget p "category"),
   ("lat", jget p "lat"),
   ("lon", jget p "lon"),
   ("alt_baro", jget p "alt_baro"),
   ("ground_speed", jget p "gs"),
   ("true_heading", jget p "true_heading"),
   ("nav_modes", jgetD p "nav_modes" (.arr [])),
   ("on_ground", .bool (pyEq (jget p "alt_baro") (.str "ground"))),
   ("squawk", jget p "squawk"),
   ("emergency", jget p "emergency"),
   ("distance", jget p "dst"),
   ("bearing", jget p "dir"),
   ("seen", jget p "seen"),
   ("seen_pos", jget p "seen_pos"),
   ("messages", jget p "messages"),
   ("rssi", jget p "rssi")]

/-- The function `normalize_plane` from `sensor.py`.  `(p.get("flight") or "").strip()`
keeps the flight value when it is truthy and otherwise substitutes `""`;
`.strip()` then requires a string — on a truthy non-string value the Python
function raises `AttributeError`, modelled by `none`. -/
def normalize_plane (p : JObj) : Option JObj :=
  match (if truthy (jget p "flight") then jget p "flight" else .str "") with
  | .str s => some (normRecord p (pyStrip s))
  | _ => none

/-! ## Coordinator (`PlanesCoordinator._async_update_data`, `sensor.py` 77–120) -/

/-- One HTTP GET request as issued by the coordinator: the URL and the
`async_timeout.timeout` bound in seconds it runs under. -/
structure Request where
  url : String
  timeoutSecs : Nat
deriving Repr, DecidableEq

/-- Outcome of the HTTP exchange `session.get(url)` / `raise_for_status()` /
`resp.json()`: either a parsed JSON body, or one of the exception paths
(non-2xx status, timeout, a network error during the request, or a JSON
parse failure). -/
inductive HttpOutcome where
  | ok : JVal → HttpOutcome
  | statusError : Nat → HttpOutcome
  | timedOut : HttpOutcome
  | connError : HttpOutcome
  | jsonError : HttpOutcome
deriving Repr, DecidableEq

/-- The environment one update cycle runs in: the host state registry
(`hass.states`, entity id to attribute dict of the registered entities) and
the outcome the network would give the request. -/
structure Env where
  states : List (String × JObj)
  http : HttpOutcome

/-- The ADSB.fi URL formed at `sensor.py` line 99: the f-string interpolates
the latitude, longitude and configured distance into the path. -/
def adsbUrl (lat lon dist : JVal) : String :=
  "https://opendata.adsb.fi/api/v3/lat/" ++ pyStr lat ++ "/lon/" ++ pyStr lon
    ++ "/dist/" ++ pyStr dist

/-- The body of the comprehension `[normalize_plane(p) for p in raw_planes]`
applied to one list element: `normalize_plane` begins with `p.get`, so a
non-dict element raises, modelled by `none`. -/
def normElem (x : JVal) : Option JObj :=
  match x with
  | .obj p => normalize_plane p
  | _ => none

/-- The expression `data.get("ac", [])` of `sensor.py` line 112. -/
def acValue (data : JObj) : JVal :=
  jgetD data "ac" (.arr [])

/-- Lines 112–113 of `sensor.py`, processing a parsed response body:
`raw_planes = data.get("ac", []) or []` followed by the comprehension
`[normalize_plane(p) for p in raw_planes]`.  A body that is not a dict, an
`ac` that is truthy but not a list, a list element that is not a dict, and
a `normalize_plane` failure all raise inside the `try`, so the caught
exception leaves `planes = []`. -/
def planesFromBody (body : JVal) : List JObj :=
  match body with
  | .obj data =>
    match (if truthy (acValue data) then acValue data else .arr []) with
    | .arr raw_planes =>
      match raw_planes.mapM normElem with
      | some planes => planes
      | none => []
    | _ => []
  | _ => []

/-- The coroutine `PlanesCoordinator._async_update_data`: returns the plane list the
Python coroutine returns together with the list of HTTP requests it issued
during the cycle.  Every failure path is caught by the surrounding
`try`/`except`, which logs and falls through to `return planes` with
`planes` still `[]`. -/
def asyncUpdateData (env : Env) (locId : String) (dist : JVal) :
    List JObj × List Request :=
  match env.states.lookup locId with
  | none => ([], [])
  | some attrs =>
    let lat := jget attrs "latitude"
    let lon := jget attrs "longitude"
    if lat = .null ∨ lon = .null then ([], [])
    else
      let req : Request := ⟨adsbUrl lat lon dist, 10⟩
      match env.http with
      | .ok body => (planesFromBody body, [req])
      | _ => ([], [req])

/-! ## Sensor presenter (`PlanesNearbySensor`, `sensor.py` 152–176) -/

/-- The property `PlanesNearbySensor.native_value`: the coordinator snapshot (possibly
`None` before a first success) is defaulted to `[]`, and the airborne
planes — those whose `on_ground` field is falsy — are counted. -/
def nativeValue (data : Option (List JObj)) : Nat :=
  let planes := data.getD []
  (planes.filter (fun p => !truthy (jget p "on_ground"))).length

/-- The property `PlanesNearbySensor.extra_state_attributes`: the pair
(`total_planes`, `planes`). -/
def extraStateAttributes (data : Option (List JObj)) : Nat × List JObj :=
  let planes := data.getD []
  (planes.length, planes)

/-! ## Geolocation presenter (`geo_location.py`) -/

/-- The method `PlaneGeoLocation._plane`: the first plane of the snapshot whose `hex`
field is Python-`==` to the `hex_id` of the entity (a `str`, per the constructor
type hint), or `None`. -/
def planeFor (data : Option (List JObj)) (hexId : String) : Option JObj :=
  (data.getD []).find? (fun p => pyEq (jget p "hex") (.str hexId))

/-- The property `PlaneGeoLocation.available`: true while `_plane()` finds the plane. -/
def geoAvailable (data : Option (List JObj)) (hexId : String) : Bool :=
  (planeFor data hexId).isSome

/-- The property `PlaneGeoLocation.latitude`: `plane.get("lat") if plane else None` — the
guard is dict truthiness, so an empty dict also yields `None`. -/
def geoLatitude (data : Option (List JObj)) (hexId : String) : JVal :=
  match planeFor data hexId with
  | some p => if p.isEmpty then .null else jget p "lat"
  | none => .null

/-- The property `PlaneGeoLocation.longitude`. -/
def geoLongitude (data : Option (List JObj)) (hexId : String) : JVal :=
  match planeFor data hexId with
  | some p => if p.isEmpty then .null else jget p "lon"
  | none => .null

/-- The property `PlaneGeoLocation.state`: `None` when `_plane()` finds nothing (or an
empty dict), otherwise the `distance` field of the plane. -/
def geoState (data : Option (List JObj)) (hexId : String) : JVal :=
  match planeFor data hexId with
  | some p => if p.isEmpty then .null else jget p "distance"
  | none => .null

/-- The loop body of `_update_entities` (`geo_location.py` 45–58): walk the
snapshot, skip a plane whose `hex` is falsy or already has an entity, and
otherwise create an entity for it (entities are identified by their
`hex_id`), extending the seen set as the loop goes.  The Python set
membership `hex_id in existing_hexes` is modelled by `pyEq`-membership. -/
def collectNew (existing : List JVal) : List JObj → List JVal
  | [] => []
  | p :: rest =>
    let hex_id := jget p "hex"
    if !truthy hex_id || existing.any (fun e => pyEq hex_id e) then
      collectNew existing rest
    else
      hex_id :: collectNew (hex_id :: existing) rest

/-- One invocation of `_update_entities`: the new entity list is the old one
extended (never shrunk) by one entity per newly seen hex. -/
def updateEntities (entities : List JVal) (data : Option (List JObj)) : List JVal :=
  entities ++ collectNew entities (data.getD [])

/-- The entity set after the initial `_update_entities()` call and one
listener invocation per subsequent snapshot: `snaps` lists each coordinator
snapshot in order, starting from no entities. -/
def entitiesAfter (snaps : List (List JObj)) : List JVal :=
  snaps.foldl (fun es snap => updateEntities es (some snap)) []

/-! ## Config flow (`config_flow.py`) -/

/-- The check `_validate_location_entity` (`config_flow.py` 24–34): `ok` when the
entity is registered and its attributes (defaulted to the empty dict when
falsy) contain both the `latitude` and the `longitude` key; otherwise the
`InvalidLocationEntity` exception, tagged with which check failed. -/
def validateLocationEntity (states : List (String × JObj)) (entityId : String) :
    Except String Unit :=
  match states.lookup entityId with
  | none => .error "not found"
  | some attrs =>
    if hasKey attrs "latitude" && hasKey attrs "longitude" then .ok ()
    else .error "has no latitude/longitude attributes"

/-- What a config-flow step returns: a created entry carrying its data
dict, or the form shown again with an error dict. -/
inductive FlowResult where
  | createEntry : JObj → FlowResult
  | showForm : List (String × String) → FlowResult
deriving Repr, DecidableEq

/-- The submitted form of the initial step: `name` is optional in the
schema, the entity id and distance are required. -/
structure UserInput where
  name : Option JVal
  location_entity_id : String
  distance : JVal

/-- Modelled from the spec: `const.py` is not among the sources; it holds
the configuration key constants and the default name the flow imports.
Only the key names are needed; `DEFAULT_NAME` is the display
name of the integration. -/
def DEFAULT_NAME : JVal := .str "Planes Nearby"

/-- The step `PlanesNearbyConfigFlow.async_step_user` with a submitted form:
validate, and either create the entry with name/entity/distance data or
re-show the form with `errors["base"] = "invalid_entity"`. -/
def asyncStepUser (states : List (String × JObj)) (ui : UserInput) : FlowResult :=
  let name := match ui.name with
    | some v => if truthy v then v else DEFAULT_NAME
    | none => DEFAULT_NAME
  match validateLocationEntity states ui.location_entity_id with
  | .ok _ =>
    .createEntry
      [("name", name),
       ("location_entity_id", .str ui.location_entity_id),
       ("distance", ui.distance)]
  | .error _ => .showForm [("base", "invalid_entity")]

/-- The step `PlanesNearbyOptionsFlowHandler.async_step_init` with a submitted form:
re-validate, and either create the options entry or re-show the form with
`errors["base"] = "invalid_entity"`. -/
def asyncStepInit (states : List (String × JObj)) (entityId : String) (dist : JVal) :
    FlowResult :=
  match validateLocationEntity states entityId with
  | .ok _ =>
    .createEntry
      [("location_entity_id", .str entityId),
       ("distance", dist)]
  | .error _ => .showForm [("base", "invalid_entity")]

/-! ## Platform setup (`sensor.py` 123–149, `geo_location.py` 28–43) -/

/-- The fields of the `data` or `options` dict of a config entry that the
platform setups read; `none` models an absent key (the config keys are
distinct constants from `const.py`, so a record is an equivalent model of
the dict). -/
structure EntryMap where
  location_entity_id : Option JVal
  distance : Option JVal

/-- A config entry: the data captured by the initial flow plus the options
from any later options flow. -/
structure ConfigEntry where
  data : EntryMap
  options : EntryMap

/-- The location entity id the sensor platform setup hands the coordinator:
`entry.options.get(CONF_LOCATION_ENTITY_ID, entry.data.get(CONF_LOCATION_ENTITY_ID))`. -/
def sensorSetupLocation (entry : ConfigEntry) : JVal :=
  entry.options.location_entity_id.getD (entry.data.location_entity_id.getD .null)

/-- The distance the sensor platform setup hands the coordinator:
`entry.options.get(CONF_DISTANCE, entry.data.get(CONF_DISTANCE, 25.0))`
(the numeric literal `25.0` is modelled by the integer 25). -/
def sensorSetupDistance (entry : ConfigEntry) : JVal :=
  entry.options.distance.getD (entry.data.distance.getD (.num 25))

/-- The location entity id the geo_location platform setup hands the
coordinator — textually the same expression as in `sensor.py`. -/
def geoSetupLocation (entry : ConfigEntry) : JVal :=
  entry.options.location_entity_id.getD (entry.data.location_entity_id.getD .null)

/-- The distance the geo_location platform setup hands the coordinator —
textually the same expression as in `sensor.py`. -/
def geoSetupDistance (entry : ConfigEntry) : JVal :=
  entry.options.distance.getD (entry.data.distance.getD (.num 25))

/-! ## Helper lemmas -/

/-- A value is Python-`==` to a string exactly when it is that string. -/
theorem pyEq_str_iff (v : JVal) (s : String) : pyEq v (.str s) = true ↔ v = .str s := by
  cases v <;> simp [pyEq]

/-! ## Theorems for the claims -/

/-- C4: `PlanesNearbySensor.native_value` counts the planes of the snapshot
whose `on_ground` field is falsy, and `extra_state_attributes` reports the
length of the snapshot as `total_planes` and the snapshot itself as `planes`;
a `None` snapshot is treated as the empty list by both. -/
theorem sensor_counts_airborne (data : Option (List JObj)) :
    nativeValue data = (data.getD []).countP (fun p => !truthy (jget p "on_ground"))
    ∧ (extraStateAttributes data).1 = (data.getD []).length
    ∧ (extraStateAttributes data).2 = data.getD []
    ∧ nativeValue none = nativeValue (some [])
    ∧ extraStateAttributes none = extraStateAttributes (some []) := by
  refine ⟨?_, rfl, rfl, rfl, rfl⟩
  simp [nativeValue, List.countP_eq_length_filter]

/-- C9: both platform setups take the location entity id and the distance
from the options of the entry when the key is present there, fall back to
the initial data of the entry otherwise, and default the distance to 25.0 when it is
absent from both. -/
theorem setup_options_override_data (entry : ConfigEntry) :
    (∀ v, entry.options.location_entity_id = some v →
      sensorSetupLocation entry = v ∧ geoSetupLocation entry = v)
    ∧ (entry.options.location_entity_id = none →
      sensorSetupLocation entry = entry.data.location_entity_id.getD .null
        ∧ geoSetupLocation entry = entry.data.location_entity_id.getD .null)
    ∧ (∀ v, entry.options.distance = some v →
      sensorSetupDistance entry = v ∧ geoSetupDistance entry = v)
    ∧ (entry.options.distance = none → ∀ v, entry.data.distance = some v →
      sensorSetupDistance entry = v ∧ geoSetupDistance entry = v)
    ∧ (entry.options.distance = none → entry.data.distance = none →
      sensorSetupDistance entry = .num 25 ∧ geoSetupDistance entry = .num 25) := by
  refine ⟨fun v hv => ?_, fun hn => ?_, fun v hv => ?_, fun hn v hv => ?_, fun hn hd => ?_⟩
  · simp [sensorSetupLocation, geoSetupLocation, hv]
  · simp [sensorSetupLocation, geoSetupLocation, hn]
  · simp [sensorSetupDistance, geoSetupDistance, hv]
  · simp [sensorSetupDistance, geoSetupDistance, hn, hv]
  · simp [sensorSetupDistance, geoSetupDistance, hn, hd]

/-- Witness for C9 at a concrete entry: options carry a location but no
distance, data carries a distance. -/
theorem setup_options_override_data_witness :
    sensorSetupLocation ⟨⟨some (.str "zone.home"), some (.num 7)⟩, ⟨some (.str "person.x"), none⟩⟩
        = .str "person.x"
    ∧ sensorSetupDistance ⟨⟨some (.str "zone.home"), some (.num 7)⟩, ⟨some (.str "person.x"), none⟩⟩
        = .num 7
    ∧ sensorSetupDistance ⟨⟨some (.str "zone.home"), none⟩, ⟨none, none⟩⟩ = .num 25 := by
  refine ⟨((setup_options_override_data _).1 _ rfl).1, ?_, ?_⟩
  · exact (((setup_options_override_data _).2.2.2.1) rfl _ rfl).1
  · exact (((setup_options_override_data _).2.2.2.2) rfl rfl).1

/-- C6: whenever the referenced location entity is registered and carries a
latitude and a longitude, the update cycle issues exactly one GET request,
to the ADSB.fi v3 URL with the latitude, longitude and configured distance
interpolated into the path, under a 10-second timeout — whatever the
network then does. -/
theorem update_issues_one_request (env : Env) (locId : String) (dist : JVal)
    (attrs : JObj)
    (hfound : env.states.lookup locId = some attrs)
    (hlat : jget attrs "latitude" ≠ .null)
    (hlon : jget attrs "longitude" ≠ .null) :
    (asyncUpdateData env locId dist).2
      = [⟨"https://opendata.adsb.fi/api/v3/lat/" ++ pyStr (jget attrs "latitude")
            ++ "/lon/" ++ pyStr (jget attrs "longitude")
            ++ "/dist/" ++ pyStr dist, 10⟩] := by
  unfold asyncUpdateData
  rw [hfound]
  simp only [hlat, hlon, or_self, if_neg, not_false_eq_true, false_or]
  cases env.http <;> simp [adsbUrl]

/-- Witness for C6: a registered zone at (52, 4), radius 25, network times
out; the one request still went to the interpolated URL. -/
theorem update_issues_one_request_witness :
    (asyncUpdateData ⟨[("zone.home", [("latitude", .num 52), ("longitude", .num 4)])], .timedOut⟩
        "zone.home" (.num 25)).2
      = [⟨"https://opendata.adsb.fi/api/v3/lat/52/lon/4/dist/25", 10⟩] := by
  have h := update_issues_one_request
    ⟨[("zone.home", [("latitude", .num 52), ("longitude", .num 4)])], .timedOut⟩
    "zone.home" (.num 25) [("latitude", .num 52), ("longitude", .num 4)]
    rfl (by decide) (by decide)
  simpa using h

/-- C2: `_async_update_data` returns the empty list (rather than letting the
error propagate) on every failure mode: the location entity not registered,
the entity lacking a usable latitude or longitude, and every non-`ok`
outcome of the HTTP exchange (bad status, timeout, connection error, JSON
parse error). -/
theorem update_fails_to_empty (env : Env) (locId : String) (dist : JVal)
    (hfail : env.states.lookup locId = none
      ∨ (∃ attrs, env.states.lookup locId = some attrs
          ∧ (jget attrs "latitude" = .null ∨ jget attrs "longitude" = .null))
      ∨ ∀ body, env.http ≠ .ok body) :
    (asyncUpdateData env locId dist).1 = [] := by
  unfold asyncUpdateData
  rcases hfail with h | ⟨attrs, hfound, hnull⟩ | hhttp
  · rw [h]
  · rw [hfound]
    simp [hnull]
  · cases hlook : env.states.lookup locId with
    | none => rfl
    | some attrs =>
      cases hh : env.http with
      | ok body => exact absurd hh (hhttp body)
      | statusError c =>
        by_cases hnull : jget attrs "latitude" = .null ∨ jget attrs "longitude" = .null
          <;> simp [hnull]
      | timedOut =>
        by_cases hnull : jget attrs "latitude" = .null ∨ jget attrs "longitude" = .null
          <;> simp [hnull]
      | connError =>
        by_cases hnull : jget attrs "latitude" = .null ∨ jget attrs "longitude" = .null
          <;> simp [hnull]
      | jsonError =>
        by_cases hnull : jget attrs "latitude" = .null ∨ jget attrs "longitude" = .null
          <;> simp [hnull]

/-- Witness for C2 at three concrete failure modes: entity missing, entity
without coordinates, and a timeout. -/
theorem update_fails_to_empty_witness :
    (asyncUpdateData ⟨[], .ok (.obj [])⟩ "zone.home" (.num 25)).1 = []
    ∧ (asyncUpdateData ⟨[("zone.home", [("latitude", .num 52)])], .ok (.obj [])⟩
        "zone.home" (.num 25)).1 = []
    ∧ (asyncUpdateData ⟨[("zone.home", [("latitude", .num 52), ("longitude", .num 4)])],
        .timedOut⟩ "zone.home" (.num 25)).1 = [] := by
  refine ⟨?_, ?_, ?_⟩
  · exact update_fails_to_empty _ _ _ (Or.inl rfl)
  · exact update_fails_to_empty _ _ _
      (Or.inr (Or.inl ⟨[("latitude", .num 52)], rfl, Or.inr rfl⟩))
  · exact update_fails_to_empty _ _ _
      (Or.inr (Or.inr fun body h => by cases h))

/-- Normalizing a list of dict elements is the comprehension over the
dicts. -/
theorem mapM_normElem_obj (ps : List JObj) :
    (ps.map JVal.obj).mapM normElem = ps.mapM normalize_plane := by
  induction ps with
  | nil => rfl
  | cons p rest ih =>
    rw [List.map_cons, List.mapM_cons, List.mapM_cons, ih]
    rfl

/-- C10: a parsed body whose `ac` is absent, `None` or otherwise falsy gives
the empty snapshot rather than a failure, and when `ac` is a non-empty
array of records whose normalization succeeds, the snapshot is exactly the
normalization pass over those records. -/
theorem ac_falsy_yields_empty (data : JObj) :
    (truthy (acValue data) = false → planesFromBody (.obj data) = [])
    ∧ (∀ ps qs, acValue data = .arr (ps.map JVal.obj) → ps ≠ [] →
        ps.mapM normalize_plane = some qs → planesFromBody (.obj data) = qs) := by
  constructor
  · intro hf
    simp only [planesFromBody, hf]
    rfl
  · intro ps qs hac hne hmap
    have ht : truthy (.arr (ps.map JVal.obj)) = true := by
      cases ps with
      | nil => exact absurd rfl hne
      | cons p rest => simp [truthy]
    simp only [planesFromBody, hac, ht, if_pos, mapM_normElem_obj, hmap]

/-- Witness for C10: `ac` set to `None`, `ac` absent, and a one-plane `ac`
array. -/
theorem ac_falsy_yields_empty_witness :
    planesFromBody (.obj [("ac", .null)]) = []
    ∧ planesFromBody (.obj []) = []
    ∧ planesFromBody (.obj [("ac", .arr [.obj [("hex", .str "a1")]])])
        = [normRecord [("hex", .str "a1")] ""] := by
  refine ⟨(ac_falsy_yields_empty _).1 (by decide),
    (ac_falsy_yields_empty _).1 (by decide), ?_⟩
  exact (ac_falsy_yields_empty _).2 [[("hex", .str "a1")]]
    [normRecord [("hex", .str "a1")] ""] (by decide) (by decide) (by decide)

/-- C5: a `PlaneGeoLocation` entity is available exactly when some plane of
the current snapshot has a `hex` field equal to its `hex_id`; when
none has, the entity is unavailable and its latitude, longitude and state
are all `None`. -/
theorem geo_availability (data : Option (List JObj)) (hexId : String) :
    (geoAvailable data hexId = true ↔ ∃ p ∈ data.getD [], jget p "hex" = .str hexId)
    ∧ ((¬ ∃ p ∈ data.getD [], jget p "hex" = .str hexId) →
        geoAvailable data hexId = false
        ∧ geoLatitude data hexId = .null
        ∧ geoLongitude data hexId = .null
        ∧ geoState data hexId = .null) := by
  have hiff : geoAvailable data hexId = true
      ↔ ∃ p ∈ data.getD [], jget p "hex" = .str hexId := by
    unfold geoAvailable planeFor
    rw [List.find?_isSome]
    constructor
    · rintro ⟨p, hp, hpe⟩
      exact ⟨p, hp, (pyEq_str_iff _ _).mp hpe⟩
    · rintro ⟨p, hp, hpe⟩
      exact ⟨p, hp, (pyEq_str_iff _ _).mpr hpe⟩
  refine ⟨hiff, fun hnone => ?_⟩
  have hfind : planeFor data hexId = none := by
    have : ¬ geoAvailable data hexId = true := fun h => hnone (hiff.mp h)
    unfold geoAvailable at this
    exact Option.not_isSome_iff_eq_none.mp (by simpa using this)
  refine ⟨?_, ?_, ?_, ?_⟩
  · unfold geoAvailable
    rw [hfind]
    rfl
  · unfold geoLatitude
    rw [hfind]
  · unfold geoLongitude
    rw [hfind]
  · unfold geoState
    rw [hfind]

/-- Witness for C5: a snapshot holding plane `abc123`; the entity for
`abc123` is available, the entity for `dead01` is not and reads `None`. -/
theorem geo_availability_witness :
    geoAvailable (some [[("hex", .str "abc123"), ("lat", .num 52)]]) "abc123" = true
    ∧ geoAvailable (some [[("hex", .str "abc123"), ("lat", .num 52)]]) "dead01" = false
    ∧ geoLatitude (some [[("hex", .str "abc123"), ("lat", .num 52)]]) "dead01" = .null
    ∧ geoState (some [[("hex", .str "abc123"), ("lat", .num 52)]]) "dead01" = .null := by
  have h1 := (geo_availability (some [[("hex", .str "abc123"), ("lat", .num 52)]]) "abc123").1
  have h2 := (geo_availability (some [[("hex", .str "abc123"), ("lat", .num 52)]]) "dead01").2
    (by decide)
  exact ⟨h1.mpr ⟨[("hex", .str "abc123"), ("lat", .num 52)], by simp, rfl⟩,
    h2.1, h2.2.1, h2.2.2.2⟩

/-- The check `_validate_location_entity` succeeds exactly when the entity is
registered with both coordinate attributes. -/
theorem validate_ok_iff (states : List (String × JObj)) (eid : String) :
    validateLocationEntity states eid = .ok ()
      ↔ ∃ attrs, states.lookup eid = some attrs
          ∧ hasKey attrs "latitude" = true ∧ hasKey attrs "longitude" = true := by
  unfold validateLocationEntity
  cases h : states.lookup eid with
  | none => simp
  | some attrs =>
    by_cases hla : hasKey attrs "latitude" = true
      <;> by_cases hlo : hasKey attrs "longitude" = true
      <;> simp [hla, hlo]

/-- C7: both the initial configuration step and the options step create an
entry exactly when the referenced entity is in the state registry with both
a `latitude` and a `longitude` attribute; otherwise
`_validate_location_entity` signals `InvalidLocationEntity` and the form is
re-shown with the error `invalid_entity`, with no entry created. -/
theorem flow_validates_entity (states : List (String × JObj)) (ui : UserInput)
    (entityId : String) (dist : JVal) :
    ((∃ attrs, states.lookup ui.location_entity_id = some attrs
        ∧ hasKey attrs "latitude" = true ∧ hasKey attrs "longitude" = true)
      ↔ ∃ d, asyncStepUser states ui = .createEntry d)
    ∧ ((¬ ∃ attrs, states.lookup ui.location_entity_id = some attrs
        ∧ hasKey attrs "latitude" = true ∧ hasKey attrs "longitude" = true) →
        (∃ e, validateLocationEntity states ui.location_entity_id = .error e)
        ∧ asyncStepUser states ui = .showForm [("base", "invalid_entity")])
    ∧ ((∃ attrs, states.lookup entityId = some attrs
        ∧ hasKey attrs "latitude" = true ∧ hasKey attrs "longitude" = true)
      ↔ ∃ d, asyncStepInit states entityId dist = .createEntry d)
    ∧ ((¬ ∃ attrs, states.lookup entityId = some attrs
        ∧ hasKey attrs "latitude" = true ∧ hasKey attrs "longitude" = true) →
        (∃ e, validateLocationEntity states entityId = .error e)
        ∧ asyncStepInit states entityId dist = .showForm [("base", "invalid_entity")]) := by
  have huser := validate_ok_iff states ui.location_entity_id
  have hinit := validate_ok_iff states entityId
  refine ⟨?_, ?_, ?_, ?_⟩
  · rw [← huser]
    cases h : validateLocationEntity states ui.location_entity_id with
    | ok u => cases u; simp [asyncStepUser, h]
    | error e => simp [asyncStepUser, h]
  · intro hn
    cases h : validateLocationEntity states ui.location_entity_id with
    | ok u => cases u; exact absurd (huser.mp h) hn
    | error e => exact ⟨⟨e, rfl⟩, by simp [asyncStepUser, h]⟩
  · rw [← hinit]
    cases h : validateLocationEntity states entityId with
    | ok u => cases u; simp [asyncStepInit, h]
    | error e => simp [asyncStepInit, h]
  · intro hn
    cases h : validateLocationEntity states entityId with
    | ok u => cases u; exact absurd (hinit.mp h) hn
    | error e => exact ⟨⟨e, rfl⟩, by simp [asyncStepInit, h]⟩

/-- Witness for C7: a registered zone with coordinates passes the user
step; an unregistered entity makes the options step re-show the form. -/
theorem flow_validates_entity_witness :
    (∃ d, asyncStepUser [("zone.home", [("latitude", .num 52), ("longitude", .num 4)])]
        ⟨none, "zone.home", .num 25⟩ = .createEntry d)
    ∧ asyncStepInit [("zone.home", [("latitude", .num 52), ("longitude", .num 4)])]
        "person.ghost" (.num 25) = .showForm [("base", "invalid_entity")] := by
  have ht := flow_validates_entity
    [("zone.home", [("latitude", .num 52), ("longitude", .num 4)])]
    ⟨none, "zone.home", .num 25⟩ "person.ghost" (.num 25)
  refine ⟨ht.1.mp ⟨[("latitude", .num 52), ("longitude", .num 4)], rfl, rfl, rfl⟩, ?_⟩
  exact (ht.2.2.2 (by rintro ⟨attrs, h, -, -⟩; exact Option.noConfusion h)).2

/-- The non-flight fields of the record `normalize_plane` builds: the
copies, the renames, and the derived `on_ground` flag. -/
theorem normRecord_main (p : JObj) (f : String) :
    jget (normRecord p f) "hex" = jget p "hex"
    ∧ jget (normRecord p f) "type" = jget p "type"
    ∧ jget (normRecord p f) "t" = jget p "t"
    ∧ jget (normRecord p f) "category" = jget p "category"
    ∧ jget (normRecord p f) "lat" = jget p "lat"
    ∧ jget (normRecord p f) "lon" = jget p "lon"
    ∧ jget (normRecord p f) "alt_baro" = jget p "alt_baro"
    ∧ jget (normRecord p f) "true_heading" = jget p "true_heading"
    ∧ jget (normRecord p f) "squawk" = jget p "squawk"
    ∧ jget (normRecord p f) "emergency" = jget p "emergency"
    ∧ jget (normRecord p f) "seen" = jget p "seen"
    ∧ jget (normRecord p f) "seen_pos" = jget p "seen_pos"
    ∧ jget (normRecord p f) "messages" = jget p "messages"
    ∧ jget (normRecord p f) "rssi" = jget p "rssi"
    ∧ jget (normRecord p f) "distance" = jget p "dst"
    ∧ jget (normRecord p f) "bearing" = jget p "dir"
    ∧ jget (normRecord p f) "ground_speed" = jget p "gs"
    ∧ jget (normRecord p f) "description" = jget p "desc"
    ∧ jget (normRecord p f) "aircraft_type" = jget p "t"
    ∧ (jget (normRecord p f) "on_ground" = .bool true
        ↔ jget p "alt_baro" = .str "ground") := by
  refine ⟨rfl, rfl, rfl, rfl, rfl, rfl, rfl, rfl, rfl, rfl, rfl, rfl, rfl, rfl,
    rfl, rfl, rfl, rfl, rfl, ?_⟩
  show JVal.bool (pyEq (jget p "alt_baro") (.str "ground")) = JVal.bool true
    ↔ jget p "alt_baro" = JVal.str "ground"
  constructor
  · intro hb
    exact (pyEq_str_iff _ _).mp (by injection hb)
  · intro hv
    rw [(pyEq_str_iff _ _).mpr hv]

/-- C1: on any input whose `flight` value is absent, `None` or a string,
`normalize_plane` is the pure rename/derive pass of the spec: `hex`,
`type`, `t`, `category`, `lat`, `lon`, `alt_baro`, `true_heading`,
`squawk`, `emergency`, `seen`, `seen_pos`, `messages` and `rssi` are copied
(absent ones as `None`); `distance`, `bearing`, `ground_speed`,
`description` and `aircraft_type` are the input `dst`, `dir`, `gs`, `desc`
and `t`; `on_ground` is true exactly when the input `alt_baro` is the
string `"ground"`; and `flight` is the stripped input string, or `None`
when the input is absent, `None`, or strips to the empty string. -/
theorem normalize_plane_fields (p : JObj)
    (h : jget p "flight" = .null ∨ ∃ s, jget p "flight" = .str s) :
    ∃ q, normalize_plane p = some q
    ∧ (jget q "hex" = jget p "hex"
      ∧ jget q "type" = jget p "type"
      ∧ jget q "t" = jget p "t"
      ∧ jget q "category" = jget p "category"
      ∧ jget q "lat" = jget p "lat"
      ∧ jget q "lon" = jget p "lon"
      ∧ jget q "alt_baro" = jget p "alt_baro"
      ∧ jget q "true_heading" = jget p "true_heading"
      ∧ jget q "squawk" = jget p "squawk"
      ∧ jget q "emergency" = jget p "emergency"
      ∧ jget q "seen" = jget p "seen"
      ∧ jget q "seen_pos" = jget p "seen_pos"
      ∧ jget q "messages" = jget p "messages"
      ∧ jget q "rssi" = jget p "rssi"
      ∧ jget q "distance" = jget p "dst"
      ∧ jget q "bearing" = jget p "dir"
      ∧ jget q "ground_speed" = jget p "gs"
      ∧ jget q "description" = jget p "desc"
      ∧ jget q "aircraft_type" = jget p "t"
      ∧ (jget q "on_ground" = .bool true ↔ jget p "alt_baro" = .str "ground"))
    ∧ (∀ s, jget p "flight" = .str s →
        jget q "flight" = (if pyStrip s = "" then .null else .str (pyStrip s)))
    ∧ (jget p "flight" = .null → jget q "flight" = .null) := by
  rcases h with hnull | ⟨s, hs⟩
  · refine ⟨normRecord p "", ?_, normRecord_main p "", ?_, fun _ => rfl⟩
    · unfold normalize_plane
      rw [hnull]
      rfl
    · intro t ht
      rw [hnull] at ht
      exact JVal.noConfusion ht
  · by_cases hse : s = ""
    · subst hse
      refine ⟨normRecord p "", ?_, normRecord_main p "", ?_, ?_⟩
      · unfold normalize_plane
        rw [hs]
        rfl
      · intro t ht
        rw [hs] at ht
        injection ht with ht
        subst ht
        rfl
      · intro hn
        rw [hs] at hn
        exact JVal.noConfusion hn
    · have ht : truthy (JVal.str s) = true := by simp [truthy, hse]
      refine ⟨normRecord p (pyStrip s), ?_, normRecord_main p (pyStrip s), ?_, ?_⟩
      · simp [normalize_plane, hs, ht]
      · intro t htt
        rw [hs] at htt
        injection htt with htt
        subst htt
        rfl
      · intro hn
        rw [hs] at hn
        exact JVal.noConfusion hn

/-- Witness for C1 at a concrete plane record with a padded flight string,
`alt_baro = "ground"` and a `dst` field. -/
theorem normalize_plane_fields_witness :
    ∃ q, normalize_plane
        [("flight", .str " AB12 "), ("alt_baro", .str "ground"), ("dst", .num 5)]
        = some q
      ∧ jget q "flight" = .str "AB12"
      ∧ jget q "on_ground" = .bool true
      ∧ jget q "distance" = .num 5
      ∧ jget q "hex" = .null := by
  obtain ⟨q, heq, hmain, hflight, -⟩ := normalize_plane_fields
    [("flight", .str " AB12 "), ("alt_baro", .str "ground"), ("dst", .num 5)]
    (Or.inr ⟨" AB12 ", rfl⟩)
  refine ⟨q, heq, ?_, ?_, ?_, ?_⟩
  · rw [hflight " AB12 " rfl]
    decide
  · exact hmain.2.2.2.2.2.2.2.2.2.2.2.2.2.2.2.2.2.2.2.mpr rfl
  · rw [hmain.2.2.2.2.2.2.2.2.2.2.2.2.2.2.1]
    decide
  · rw [hmain.1]
    decide

/-- Counterexample to C8 as stated: already on the empty input record the
normalized dict has 22 keys, not 21. -/
theorem normalize_plane_keys_cex :
    (normalize_plane []).map (fun q => (q.map Prod.fst).length) ≠ some 21
    ∧ (normalize_plane []).map (fun q => (q.map Prod.fst).length) = some 22 := by
  constructor
  · decide
  · decide

/-- C8 amended (the fixed key set has 22 keys, not 21): on any input whose
`flight` value is absent, `None` or a string, `normalize_plane` returns a
dict with exactly the 22 keys below in source order, whatever keys the
input has; each output key whose source key is absent is `None`, except
`nav_modes` which defaults to the empty list and `on_ground` which
defaults to false. -/
theorem normalize_plane_key_set (p : JObj)
    (h : jget p "flight" = .null ∨ ∃ s, jget p "flight" = .str s) :
    ∃ q, normalize_plane p = some q
    ∧ q.map Prod.fst = ["hex", "type", "flight", "t", "aircraft_type",
        "description", "category", "lat", "lon", "alt_baro", "ground_speed",
        "true_heading", "nav_modes", "on_ground", "squawk", "emergency",
        "distance", "bearing", "seen", "seen_pos", "messages", "rssi"]
    ∧ (p.lookup "hex" = none → jget q "hex" = .null)
    ∧ (p.lookup "type" = none → jget q "type" = .null)
    ∧ (p.lookup "flight" = none → jget q "flight" = .null)
    ∧ (p.lookup "t" = none → jget q "t" = .null ∧ jget q "aircraft_type" = .null)
    ∧ (p.lookup "desc" = none → jget q "description" = .null)
    ∧ (p.lookup "category" = none → jget q "category" = .null)
    ∧ (p.lookup "lat" = none → jget q "lat" = .null)
    ∧ (p.lookup "lon" = none → jget q "lon" = .null)
    ∧ (p.lookup "alt_baro" = none →
        jget q "alt_baro" = .null ∧ jget q "on_ground" = .bool false)
    ∧ (p.lookup "gs" = none → jget q "ground_speed" = .null)
    ∧ (p.lookup "true_heading" = none → jget q "true_heading" = .null)
    ∧ (p.lookup "nav_modes" = none → jget q "nav_modes" = .arr [])
    ∧ (p.lookup "squawk" = none → jget q "squawk" = .null)
    ∧ (p.lookup "emergency" = none → jget q "emergency" = .null)
    ∧ (p.lookup "dst" = none → jget q "distance" = .null)
    ∧ (p.lookup "dir" = none → jget q "bearing" = .null)
    ∧ (p.lookup "seen" = none → jget q "seen" = .null)
    ∧ (p.lookup "seen_pos" = none → jget q "seen_pos" = .null)
    ∧ (p.lookup "messages" = none → jget q "messages" = .null)
    ∧ (p.lookup "rssi" = none → jget q "rssi" = .null) := by
  obtain ⟨f, hf, hfl⟩ : ∃ f, normalize_plane p = some (normRecord p f)
      ∧ (p.lookup "flight" = none →
          (if f = "" then JVal.null else JVal.str f) = JVal.null) := by
    rcases h with hnull | ⟨s, hs⟩
    · exact ⟨"", by unfold normalize_plane; rw [hnull]; rfl, fun _ => rfl⟩
    · by_cases hse : s = ""
      · subst hse
        exact ⟨"", by unfold normalize_plane; rw [hs]; rfl, fun _ => rfl⟩
      · refine ⟨pyStrip s, ?_, ?_⟩
        · have ht : truthy (JVal.str s) = true := by simp [truthy, hse]
          simp [normalize_plane, hs, ht]
        · intro habs
          have hnl : jget p "flight" = .null := by simp [jget, habs]
          rw [hs] at hnl
          exact JVal.noConfusion hnl
  refine ⟨normRecord p f, hf, rfl, ?_, ?_, ?_, ?_, ?_, ?_, ?_, ?_, ?_, ?_, ?_,
    ?_, ?_, ?_, ?_, ?_, ?_, ?_, ?_, ?_⟩
  · intro habs
    show jget p "hex" = JVal.null
    simp [jget, habs]
  · intro habs
    show jget p "type" = JVal.null
    simp [jget, habs]
  · intro habs
    exact hfl habs
  · intro habs
    constructor <;> (show jget p "t" = JVal.null; simp [jget, habs])
  · intro habs
    show jget p "desc" = JVal.null
    simp [jget, habs]
  · intro habs
    show jget p "category" = JVal.null
    simp [jget, habs]
  · intro habs
    show jget p "lat" = JVal.null
    simp [jget, habs]
  · intro habs
    show jget p "lon" = JVal.null
    simp [jget, habs]
  · intro habs
    have hnl : jget p "alt_baro" = JVal.null := by simp [jget, habs]
    refine ⟨hnl, ?_⟩
    show JVal.bool (pyEq (jget p "alt_baro") (.str "ground")) = JVal.bool false
    rw [hnl]
    rfl
  · intro habs
    show jget p "gs" = JVal.null
    simp [jget, habs]
  · intro habs
    show jget p "true_heading" = JVal.null
    simp [jget, habs]
  · intro habs
    show jgetD p "nav_modes" (.arr []) = JVal.arr []
    simp [jgetD, habs]
  · intro habs
    show jget p "squawk" = JVal.null
    simp [jget, habs]
  · intro habs
    show jget p "emergency" = JVal.null
    simp [jget, habs]
  · intro habs
    show jget p "dst" = JVal.null
    simp [jget, habs]
  · intro habs
    show jget p "dir" = JVal.null
    simp [jget, habs]
  · intro habs
    show jget p "seen" = JVal.null
    simp [jget, habs]
  · intro habs
    show jget p "seen_pos" = JVal.null
    simp [jget, habs]
  · intro habs
    show jget p "messages" = JVal.null
    simp [jget, habs]
  · intro habs
    show jget p "rssi" = JVal.null
    simp [jget, habs]

/-- Witness for the amended C8 at the empty input record. -/
theorem normalize_plane_key_set_witness :
    ∃ q, normalize_plane [] = some q
    ∧ q.map Prod.fst = ["hex", "type", "flight", "t", "aircraft_type",
        "description", "category", "lat", "lon", "alt_baro", "ground_speed",
        "true_heading", "nav_modes", "on_ground", "squawk", "emergency",
        "distance", "bearing", "seen", "seen_pos", "messages", "rssi"]
    ∧ jget q "nav_modes" = .arr []
    ∧ jget q "on_ground" = .bool false
    ∧ jget q "hex" = .null := by
  obtain ⟨q, heq, hkeys, hhex, -, -, -, -, -, -, -, halt, -, -, hnav, hrest⟩ :=
    normalize_plane_key_set [] (Or.inl rfl)
  exact ⟨q, heq, hkeys, hnav rfl, (halt rfl).2, hhex rfl⟩

/-- On a set whose elements are all strings, `pyEq`-membership of a string
is plain membership (matching Python set membership of hashable keys). -/
theorem any_pyEq_str (es : List JVal) (hes : ∀ v ∈ es, ∃ b, v = JVal.str b)
    (a : String) :
    es.any (fun e => pyEq (.str a) e) = true ↔ JVal.str a ∈ es := by
  rw [List.any_eq_true]
  constructor
  · rintro ⟨e, he, hpe⟩
    obtain ⟨b, rfl⟩ := hes e he
    have hab : a = b := by simpa [pyEq] using hpe
    subst hab
    exact he
  · intro he
    exact ⟨JVal.str a, he, by simp [pyEq]⟩

/-- The new-entity pass of `_update_entities` over one snapshot, starting
from an entity set `es` of string ids: the collected ids are strings, are
new, are mutually distinct, and are exactly the non-empty hex ids of the
snapshot that had no entity yet. -/
theorem collectNew_spec (l : List JObj) :
    ∀ es : List JVal,
      (∀ p ∈ l, jget p "hex" = .null ∨ ∃ s, jget p "hex" = .str s) →
      (∀ v ∈ es, ∃ b, v = JVal.str b) →
      (∀ v ∈ collectNew es l, ∃ b, v = JVal.str b)
      ∧ (∀ v ∈ collectNew es l, v ∉ es)
      ∧ (collectNew es l).Nodup
      ∧ (∀ s : String, JVal.str s ∈ collectNew es l
          ↔ s ≠ "" ∧ JVal.str s ∉ es ∧ ∃ p ∈ l, jget p "hex" = .str s) := by
  induction l with
  | nil =>
    intro es hl hes
    simp [collectNew]
  | cons p rest ih =>
    intro es hl hes
    have hlrest : ∀ q ∈ rest, jget q "hex" = .null ∨ ∃ s, jget q "hex" = .str s :=
      fun q hq => hl q (by simp [hq])
    rcases hl p (by simp) with hnull | ⟨a, ha⟩
    · have hred : collectNew es (p :: rest) = collectNew es rest := by
        simp [collectNew, hnull, truthy]
      obtain ⟨h1, h2, h3, h4⟩ := ih es hlrest hes
      rw [hred]
      refine ⟨h1, h2, h3, fun s => ?_⟩
      rw [h4 s]
      constructor
      · rintro ⟨hs, hnot, q, hq, hhex⟩
        exact ⟨hs, hnot, q, by simp [hq], hhex⟩
      · rintro ⟨hs, hnot, q, hq, hhex⟩
        rcases List.mem_cons.mp hq with rfl | hq'
        · rw [hnull] at hhex
          exact JVal.noConfusion hhex
        · exact ⟨hs, hnot, q, hq', hhex⟩
    · by_cases hae : a = ""
      · subst hae
        have hred : collectNew es (p :: rest) = collectNew es rest := by
          simp [collectNew, ha, truthy]
        obtain ⟨h1, h2, h3, h4⟩ := ih es hlrest hes
        rw [hred]
        refine ⟨h1, h2, h3, fun s => ?_⟩
        rw [h4 s]
        constructor
        · rintro ⟨hs, hnot, q, hq, hhex⟩
          exact ⟨hs, hnot, q, by simp [hq], hhex⟩
        · rintro ⟨hs, hnot, q, hq, hhex⟩
          rcases List.mem_cons.mp hq with rfl | hq'
          · rw [ha] at hhex
            injection hhex with hhex
            exact absurd hhex.symm hs
          · exact ⟨hs, hnot, q, hq', hhex⟩
      · by_cases hmem : JVal.str a ∈ es
        · have hany : es.any (fun e => pyEq (jget p "hex") e) = true := by
            rw [ha]
            exact (any_pyEq_str es hes a).mpr hmem
          have hred : collectNew es (p :: rest) = collectNew es rest := by
            simp [collectNew, hany]
          obtain ⟨h1, h2, h3, h4⟩ := ih es hlrest hes
          rw [hred]
          refine ⟨h1, h2, h3, fun s => ?_⟩
          rw [h4 s]
          constructor
          · rintro ⟨hs, hnot, q, hq, hhex⟩
            exact ⟨hs, hnot, q, by simp [hq], hhex⟩
          · rintro ⟨hs, hnot, q, hq, hhex⟩
            rcases List.mem_cons.mp hq with rfl | hq'
            · rw [ha] at hhex
              injection hhex with hhex
              subst hhex
              exact absurd hmem hnot
            · exact ⟨hs, hnot, q, hq', hhex⟩
        · have hany : es.any (fun e => pyEq (.str a) e) = false := by
            rw [← Bool.not_eq_true]
            intro hc
            exact hmem ((any_pyEq_str es hes a).mp hc)
          have hred : collectNew es (p :: rest)
              = JVal.str a :: collectNew (JVal.str a :: es) rest := by
            simp [collectNew, ha, truthy, hae, hany]
          have hes' : ∀ v ∈ (JVal.str a :: es), ∃ b, v = JVal.str b := by
            intro v hv
            rcases List.mem_cons.mp hv with rfl | hv'
            · exact ⟨a, rfl⟩
            · exact hes v hv'
          obtain ⟨h1, h2, h3, h4⟩ := ih (JVal.str a :: es) hlrest hes'
          rw [hred]
          refine ⟨?_, ?_, ?_, ?_⟩
          · intro v hv
            rcases List.mem_cons.mp hv with rfl | hv'
            · exact ⟨a, rfl⟩
            · exact h1 v hv'
          · intro v hv
            rcases List.mem_cons.mp hv with rfl | hv'
            · exact hmem
            · intro hin
              exact h2 v hv' (by simp [hin])
          · rw [List.nodup_cons]
            exact ⟨fun hin => h2 _ hin (by simp), h3⟩
          · intro s
            rw [List.mem_cons, h4 s]
            constructor
            · rintro (heq | ⟨hs, hnot, q, hq, hhex⟩)
              · injection heq with heq
                subst heq
                exact ⟨hae, hmem, p, by simp, ha⟩
              · refine ⟨hs, fun hin => hnot (by simp [hin]), q, by simp [hq], hhex⟩
            · rintro ⟨hs, hnotes, q, hq, hhex⟩
              rcases List.mem_cons.mp hq with rfl | hq'
              · left
                rw [ha] at hhex
                injection hhex with hhex
                rw [hhex]
              · by_cases hsa : s = a
                · left
                  rw [hsa]
                · right
                  refine ⟨hs, ?_, q, hq', hhex⟩
                  intro hin
                  rcases List.mem_cons.mp hin with heq | hin'
                  · injection heq with heq
                    exact hsa heq
                  · exact hnotes hin'

/-- One right-extension step of the entity-set fold. -/
theorem entitiesAfter_concat (l : List (List JObj)) (snap : List JObj) :
    entitiesAfter (l ++ [snap])
      = entitiesAfter l ++ collectNew (entitiesAfter l) snap := by
  simp [entitiesAfter, List.foldl_append, updateEntities]

/-- C3: after the initial `_update_entities` call and each listener
invocation, the entity set (entities identified by their string `hex_id`)
holds exactly one entity per distinct non-empty hex id seen in any snapshot
so far, never two entities for one id, and entities are only ever appended,
never removed.  The hypothesis states the `hex` values are strings or
absent, as the `hex_id: str` type hint assumes. -/
theorem geo_entity_set (snaps : List (List JObj))
    (hok : ∀ snap ∈ snaps, ∀ p ∈ snap,
      jget p "hex" = .null ∨ ∃ s, jget p "hex" = .str s) :
    (∀ v ∈ entitiesAfter snaps, ∃ b, v = JVal.str b)
    ∧ (entitiesAfter snaps).Nodup
    ∧ (∀ s : String, JVal.str s ∈ entitiesAfter snaps
        ↔ s ≠ "" ∧ ∃ snap ∈ snaps, ∃ p ∈ snap, jget p "hex" = .str s)
    ∧ (∀ snap, ∃ added, entitiesAfter (snaps ++ [snap])
        = entitiesAfter snaps ++ added) := by
  have main : ∀ sl : List (List JObj),
      (∀ snap ∈ sl, ∀ p ∈ snap,
        jget p "hex" = .null ∨ ∃ s, jget p "hex" = .str s) →
      (∀ v ∈ entitiesAfter sl, ∃ b, v = JVal.str b)
      ∧ (entitiesAfter sl).Nodup
      ∧ (∀ s : String, JVal.str s ∈ entitiesAfter sl
          ↔ s ≠ "" ∧ ∃ snap ∈ sl, ∃ p ∈ snap, jget p "hex" = .str s) := by
    intro sl
    induction sl using List.reverseRecOn with
    | nil =>
      intro _
      simp [entitiesAfter]
    | append_singleton l snap ih =>
      intro hok'
      obtain ⟨ih1, ih2, ih3⟩ := ih (fun sn hsn => hok' sn (by simp [hsn]))
      obtain ⟨c1, c2, c3, c4⟩ :=
        collectNew_spec snap (entitiesAfter l) (hok' snap (by simp)) ih1
      rw [entitiesAfter_concat]
      refine ⟨?_, ?_, ?_⟩
      · intro v hv
        rcases List.mem_append.mp hv with hv' | hv'
        · exact ih1 v hv'
        · exact c1 v hv'
      · rw [List.nodup_append]
        exact ⟨ih2, c3, fun v hv hc => c2 v hc hv⟩
      · intro s
        rw [List.mem_append, ih3 s, c4 s]
        constructor
        · rintro (⟨hs, sn, hsn, q, hq, hhex⟩ | ⟨hs, hnot, q, hq, hhex⟩)
          · exact ⟨hs, sn, by simp [hsn], q, hq, hhex⟩
          · exact ⟨hs, snap, by simp, q, hq, hhex⟩
        · rintro ⟨hs, sn, hsn, q, hq, hhex⟩
          rcases List.mem_append.mp hsn with hsn' | hsn'
          · exact Or.inl ⟨hs, sn, hsn', q, hq, hhex⟩
          · rcases List.mem_singleton.mp hsn' with rfl
            by_cases hmem : JVal.str s ∈ entitiesAfter l
            · exact Or.inl ((ih3 s).mp hmem)
            · exact Or.inr ⟨hs, hmem, q, hq, hhex⟩
  obtain ⟨m1, m2, m3⟩ := main snaps hok
  exact ⟨m1, m2, m3, fun snap =>
    ⟨collectNew (entitiesAfter snaps) snap, entitiesAfter_concat snaps snap⟩⟩

/-- Witness for C3 over two concrete snapshots: hex `aaa` appears twice and
gets one entity, a `None` hex gets none, `ccc` arrives in the second
snapshot, and no entity exists for an id never seen. -/
theorem geo_entity_set_witness :
    JVal.str "aaa" ∈ entitiesAfter
        [[[("hex", .str "aaa")], [("hex", .null)], [("hex", .str "aaa")]],
         [[("hex", .str "ccc")]]]
    ∧ JVal.str "ccc" ∈ entitiesAfter
        [[[("hex", .str "aaa")], [("hex", .null)], [("hex", .str "aaa")]],
         [[("hex", .str "ccc")]]]
    ∧ (entitiesAfter
        [[[("hex", .str "aaa")], [("hex", .null)], [("hex", .str "aaa")]],
         [[("hex", .str "ccc")]]]).Nodup
    ∧ JVal.str "zzz" ∉ entitiesAfter
        [[[("hex", .str "aaa")], [("hex", .null)], [("hex", .str "aaa")]],
         [[("hex", .str "ccc")]]] := by
  have hok : ∀ snap ∈ [[[("hex", JVal.str "aaa")], [("hex", JVal.null)],
        [("hex", JVal.str "aaa")]], [[("hex", JVal.str "ccc")]]],
      ∀ p ∈ snap, jget p "hex" = JVal.null ∨ ∃ s, jget p "hex" = JVal.str s := by
    intro snap hsnap p hp
    rcases List.mem_cons.mp hsnap with rfl | hsnap'
    · rcases List.mem_cons.mp hp with rfl | hp'
      · exact Or.inr ⟨"aaa", rfl⟩
      rcases List.mem_cons.mp hp' with rfl | hp''
      · exact Or.inl rfl
      rcases List.mem_cons.mp hp'' with rfl | hp3
      · exact Or.inr ⟨"aaa", rfl⟩
      · exact absurd hp3 (List.not_mem_nil p)
    rcases List.mem_cons.mp hsnap' with rfl | hsnap''
    · rcases List.mem_cons.mp hp with rfl | hp'
      · exact Or.inr ⟨"ccc", rfl⟩
      · exact absurd hp' (List.not_mem_nil p)
    · exact absurd hsnap'' (List.not_mem_nil snap)
  have h := geo_entity_set _ hok
  refine ⟨(h.2.2.1 "aaa").mpr (by decide), (h.2.2.1 "ccc").mpr (by decide),
    h.2.1, fun hmem => absurd ((h.2.2.1 "zzz").mp hmem) (by decide)⟩

end NearbyPlanes
